import Mathlib

/-!
Shallow embedding of the WizScribe dual-audio core (src-tauri/src/dual_audio.rs,
with the callers in lib.rs and the segment type of whisper.rs) and proofs of the
specification's claims about it.

Modelling conventions:
* Rust `u64`/`usize` become `Nat` (the fields are only compared and copied, never
  overflowed); `i64` becomes `Int`; `f32`/`f64` sample values and ratios become `ℚ`
  with exact arithmetic, and the truncating `as` casts become explicit floor /
  truncation on `ℚ`.
* Fallible Rust functions return `Except String _`; functions that read external
  state (device enumeration, file contents) take that state as an explicit
  environment argument.
* Stateful methods on `&mut self` become functions `State → State × result`.
-/

/-- `SpeakerSegment` (dual_audio.rs:16-23): one transcribed segment with
speaker attribution. -/
structure SpeakerSegment where
  speaker : String
  text : String
  start_ms : Nat
  end_ms : Nat
  is_overlapping : Bool
deriving DecidableEq, Repr

/-- `SpeakerTranscript` (dual_audio.rs:26-33): complete transcript with
speaker attribution. -/
structure SpeakerTranscript where
  version : Nat
  mic_device : String
  system_device : String
  has_dual_audio : Bool
  segments : List SpeakerSegment
deriving DecidableEq, Repr

/-- `SpeakerTranscript::new` (dual_audio.rs:36-44). -/
def SpeakerTranscript.new (mic_device system_device : String) : SpeakerTranscript :=
  { version := 1
    mic_device := mic_device
    system_device := system_device
    has_dual_audio := true
    segments := [] }

/-- The body of the overlap-detection loop of `SpeakerTranscript::merge`
(dual_audio.rs:68-76): given the previous element of the sorted vector and the
current one, mark the current one overlapping when `prev_end > curr_start` and
the speakers differ; otherwise leave it unchanged. -/
def overlapStep (prev cur : SpeakerSegment) : SpeakerSegment :=
  if prev.end_ms > cur.start_ms ∧ prev.speaker ≠ cur.speaker then
    { cur with is_overlapping := true }
  else cur

/-- The overlap-detection loop of `SpeakerTranscript::merge` (dual_audio.rs:68-76)
run over the tail of the sorted vector: each element is rewritten by
`overlapStep` against the (already rewritten) element before it, exactly as the
in-place loop `for i in 1..len` reads index `i - 1` of the mutated vector. -/
def markOverlaps : SpeakerSegment → List SpeakerSegment → List SpeakerSegment
  | _, [] => []
  | prev, cur :: rest =>
      overlapStep prev cur :: markOverlaps (overlapStep prev cur) rest

/-- The comparator of `all_segments.sort_by_key(|s| s.start_ms)`
(dual_audio.rs:65). -/
def segLE (a b : SpeakerSegment) : Bool := decide (a.start_ms ≤ b.start_ms)

/-- `SpeakerTranscript::merge` (dual_audio.rs:47-79): force the speaker labels
("Me" for mic, "Them" for system), concatenate, stable-sort by `start_ms`
(Rust's `sort_by_key` is a stable sort; `List.mergeSort` is the stable sort by
the same key, so it produces the identical list), then run the
overlap-detection pass. -/
def SpeakerTranscript.merge (mic_segments system_segments : List SpeakerSegment) :
    List SpeakerSegment :=
  let mic := mic_segments.map fun s => { s with speaker := "Me" }
  let system := system_segments.map fun s => { s with speaker := "Them" }
  let all_segments := (mic ++ system).mergeSort segLE
  match all_segments with
  | [] => []
  | h :: t => h :: markOverlaps h t

/-- A segment with its `is_overlapping` flag cleared; two segments that agree
under `stripFlag` agree on every field the merge algorithm reads. -/
def stripFlag (s : SpeakerSegment) : SpeakerSegment := { s with is_overlapping := false }

/-! ## Stereo synchronizer/writer (dual_audio.rs:112-182) -/

/-- Rust's truncating float-to-integer cast (`as i16`), rounding toward zero,
on the exact-rational model of sample values. -/
def truncQ (x : ℚ) : ℤ := if 0 ≤ x then ⌊x⌋ else ⌈x⌉

/-- The clamping of `StereoWavWriter::write_frame` (dual_audio.rs:143-144):
`sample.max(-1.0).min(1.0)`. -/
def clampSample (x : ℚ) : ℚ := min (max x (-1)) 1

/-- The quantization of `StereoWavWriter::write_frame` (dual_audio.rs:146-147):
`(clamped * 32767.0) as i16`.  Within the clamped range the cast never
saturates, so it is exactly the truncating cast. -/
def quantizeSample (x : ℚ) : ℤ := truncQ (clampSample x * 32767)

/-- `StereoWavWriter` (dual_audio.rs:113-118).  The `hound` WAV sink is
modelled by the list of `(left, right)` 16-bit sample pairs written to it. -/
structure StereoWavWriter where
  left_buffer : List ℚ
  right_buffer : List ℚ
  written : List (ℤ × ℤ)
  samples_written : Nat
deriving DecidableEq, Repr

/-- `StereoWavWriter::write_frame` (dual_audio.rs:142-154): clamp, quantize and
write one interleaved frame. -/
def StereoWavWriter.write_frame (w : StereoWavWriter) (left right : ℚ) : StereoWavWriter :=
  { w with
    written := w.written ++ [(quantizeSample left, quantizeSample right)]
    samples_written := w.samples_written + 1 }

/-- `StereoWavWriter::buffer_left` (dual_audio.rs:157-159). -/
def StereoWavWriter.buffer_left (w : StereoWavWriter) (samples : List ℚ) : StereoWavWriter :=
  { w with left_buffer := w.left_buffer ++ samples }

/-- `StereoWavWriter::buffer_right` (dual_audio.rs:162-164). -/
def StereoWavWriter.buffer_right (w : StereoWavWriter) (samples : List ℚ) : StereoWavWriter :=
  { w with right_buffer := w.right_buffer ++ samples }

/-- The sequence of `(left, right)` sample pairs popped by the loop of
`StereoWavWriter::flush_buffers` (dual_audio.rs:169-173): while either backlog
is non-empty, pop the front of each (`pop_front().unwrap_or(0.0)`, i.e. zero
for an empty side). -/
def flushPairs : List ℚ → List ℚ → List (ℚ × ℚ)
  | [], [] => []
  | [], r :: rt => (0, r) :: flushPairs [] rt
  | l :: lt, [] => (l, 0) :: flushPairs lt []
  | l :: lt, r :: rt => (l, r) :: flushPairs lt rt

/-- `StereoWavWriter::flush_buffers` (dual_audio.rs:168-175): each popped pair
is passed to `write_frame`; afterwards both backlogs are empty. -/
def StereoWavWriter.flush_buffers (w : StereoWavWriter) : StereoWavWriter :=
  let pairs := flushPairs w.left_buffer w.right_buffer
  { left_buffer := []
    right_buffer := []
    written := w.written ++ pairs.map fun pr => (quantizeSample pr.1, quantizeSample pr.2)
    samples_written := w.samples_written + pairs.length }

/-! ## Resampler (dual_audio.rs:711-730)

`f32`/`f64` arithmetic is modelled exactly over `ℚ`; the truncating
`as usize` casts (which clamp negative values to zero) become
`Int.toNat ∘ Int.floor`. -/

/-- `let output_len = (samples.len() as f64 * ratio) as usize`
(dual_audio.rs:716). -/
def resampleLen (n : Nat) (ratio : ℚ) : Nat := (⌊(n : ℚ) * ratio⌋).toNat

/-- `let idx0 = src_idx.floor() as usize` for `src_idx = i as f64 / ratio`
(dual_audio.rs:720-721). -/
def resampleIdx0 (ratio : ℚ) (i : Nat) : Nat := (⌊(i : ℚ) / ratio⌋).toNat

/-- `let idx1 = (idx0 + 1).min(samples.len().saturating_sub(1))`
(dual_audio.rs:722). -/
def resampleIdx1 (n : Nat) (ratio : ℚ) (i : Nat) : Nat :=
  min (resampleIdx0 ratio i + 1) (n - 1)

/-- `resample_linear` (dual_audio.rs:711-730): identity inside the
`|ratio - 1| < 0.01` band, otherwise linear interpolation with out-of-bounds
reads (`samples.get(_).copied().unwrap_or(0.0)`) falling back to `0`. -/
def resample_linear (samples : List ℚ) (ratio : ℚ) : List ℚ :=
  if |ratio - 1| < 1/100 then samples
  else
    (List.range (resampleLen samples.length ratio)).map fun (i : Nat) =>
      let src_idx : ℚ := (i : ℚ) / ratio
      let idx0 : Nat := resampleIdx0 ratio i
      let idx1 : Nat := resampleIdx1 samples.length ratio i
      let frac : ℚ := src_idx - (idx0 : ℚ)
      samples.getD idx0 0 * (1 - frac) + samples.getD idx1 0 * frac

/-! ## Devices, environment, and the recording session

`audio::AudioDevice` and `audio::list_audio_devices` are referenced from
dual_audio.rs:13 but their definitions are not under src/. -/

/-- Modelled from the spec: `audio::AudioDevice`, the Device Catalog entry of
§6 (`{name, index, is_monitor}`); its definition is not under src/. -/
structure AudioDevice where
  name : String
  index : Nat
  is_monitor : Bool
deriving DecidableEq, Repr

/-- A cpal input device as the recorder observes it: the results of
`device.name()` and `device.default_input_config()`. -/
structure StreamConfig where
  sample_rate : Nat
  channels : Nat
  format_supported : Bool
deriving DecidableEq, Repr

/-- One entry of `cpal::default_host().input_devices()`. -/
structure CpalDevice where
  name_result : Except String String
  config : Except String StreamConfig
deriving Repr

/-- The external state read by the recording pipeline: device enumeration
results, file-system outcomes of the sink operations, and the stream
build/play outcomes.  Each field is the result the corresponding fallible
external call would return. -/
structure AudioEnv where
  devices : Except String (List AudioDevice)
  input_devices : Except String (List CpalDevice)
  duration : String → Except String ℚ
  file_create : Except String Unit
  header_write : Except String Unit
  finalize_result : Except String Unit
  mic_build : Except String Unit
  system_build : Except String Unit
  mic_play : Except String Unit
  system_play : Except String Unit

/-- `get_default_devices` (dual_audio.rs:185-198): first non-monitor device
and first monitor device of the catalog; `(None, None)` when enumeration
fails. -/
def get_default_devices (env : AudioEnv) : Option Nat × Option Nat :=
  match env.devices with
  | .error _ => (none, none)
  | .ok devices =>
      (devices.findIdx? (fun d => !d.is_monitor), devices.findIdx? (fun d => d.is_monitor))

/-- `get_device_by_index` (dual_audio.rs:201-206):
`host.input_devices()?.nth(index)`. -/
def get_device_by_index (env : AudioEnv) (index : Nat) : Except String CpalDevice :=
  match env.input_devices with
  | .error e => .error e
  | .ok l =>
      match l.get? index with
      | some d => .ok d
      | none => .error ("Device with index " ++ toString index ++ " not found")

/-- `DualRecordingStatus` (dual_audio.rs:84-90). -/
structure DualRecordingStatus where
  audio_path : String
  mic_active : Bool
  system_active : Bool
  mic_device : String
  system_device : String
deriving DecidableEq, Repr

/-- `DualRecordingResult` (dual_audio.rs:94-100). -/
structure DualRecordingResult where
  meeting_id : String
  duration_secs : Nat
  is_dual_audio : Bool
  mic_captured : Bool
  system_captured : Bool
deriving DecidableEq, Repr

/-- `DualAudioRecorder` (dual_audio.rs:209-218).  The `Arc<AtomicBool>` flags
become plain booleans: the model is sequential, and the claims settled on it
concern the synchronous guard paths of `start`/`stop`. -/
structure DualAudioRecorder where
  audio_dir : String
  current_meeting_id : Option String
  is_recording : Bool
  mic_active : Bool
  system_active : Bool
  mic_device_name : String
  system_device_name : String
  sample_rate : Nat
deriving DecidableEq, Repr

/-- `DualAudioRecorder::new` (dual_audio.rs:221-232). -/
def DualAudioRecorder.new (audio_dir : String) : DualAudioRecorder :=
  { audio_dir := audio_dir
    current_meeting_id := none
    is_recording := false
    mic_active := false
    system_active := false
    mic_device_name := ""
    system_device_name := ""
    sample_rate := 16000 }

/-- `self.audio_dir.join(format!("{}.wav", meeting_id))`
(dual_audio.rs:282,342). -/
def audioPath (audio_dir meeting_id : String) : String :=
  audio_dir ++ "/" ++ meeting_id ++ ".wav"

/-- `DualAudioRecorder::start` (dual_audio.rs:236-325), synchronous part: the
already-recording guard, device resolution (explicit index or catalog
default; missing mic is fatal, missing system degrades to mono), and the
state/status updates.  The spawned capture thread's body
(`record_dual_streams` / `record_mono_stream`) is modelled separately.
Returns the state after the call together with the call's result. -/
def DualAudioRecorder.start (st : DualAudioRecorder) (env : AudioEnv)
    (meeting_id : String) (mic_device_index system_device_index : Option Nat) :
    DualAudioRecorder × Except String DualRecordingStatus :=
  if st.is_recording then (st, .error "Already recording")
  else
    let dft := get_default_devices env
    match mic_device_index <|> dft.1 with
    | none => (st, .error "No microphone device available")
    | some mic_idx =>
      let system_idx := system_device_index <|> dft.2
      match get_device_by_index env mic_idx with
      | .error e => (st, .error e)
      | .ok mic_device =>
        let mic_name := match mic_device.name_result with
          | .ok n => n
          | .error _ => "Unknown Mic"
        let sys : String × Bool := match system_idx with
          | some idx =>
              match get_device_by_index env idx with
              | .ok d =>
                  (match d.name_result with
                    | .ok n => n
                    | .error _ => "Unknown System", true)
              | .error _ => ("Not available", false)
          | none => ("Not available", false)
        let has_system_audio := sys.2
        let st1 : DualAudioRecorder :=
          { st with
            mic_device_name := mic_name
            system_device_name := sys.1
            current_meeting_id := some meeting_id
            is_recording := true
            mic_active := true
            system_active := has_system_audio }
        (st1, .ok
          { audio_path := audioPath st.audio_dir meeting_id
            mic_active := true
            system_active := has_system_audio
            mic_device := st1.mic_device_name
            system_device := st1.system_device_name })

/-- `DualAudioRecorder::stop` (dual_audio.rs:328-362): the not-recording
guard, capture-flag snapshot, flag clearing, meeting-id take, and duration
read-back (`get_audio_duration`, 0 on error; `as u64` truncates). -/
def DualAudioRecorder.stop (st : DualAudioRecorder) (env : AudioEnv) :
    DualAudioRecorder × Except String DualRecordingResult :=
  if !st.is_recording then (st, .error "Not recording")
  else
    let mic_captured := st.mic_active
    let system_captured := st.system_active
    let meeting_id := st.current_meeting_id.getD ""
    let duration : Nat :=
      match env.duration (audioPath st.audio_dir meeting_id) with
      | .ok d => (⌊d⌋).toNat
      | .error _ => 0
    let st1 : DualAudioRecorder :=
      { st with
        is_recording := false
        current_meeting_id := none
        mic_active := false
        system_active := false }
    (st1, .ok
      { meeting_id := meeting_id
        duration_secs := duration
        is_dual_audio := mic_captured && system_captured
        mic_captured := mic_captured
        system_captured := system_captured })

/-- The system-stream error callback of `record_dual_streams`
(dual_audio.rs:680-684): `system_active_clone.store(false, SeqCst)` — a
mid-session system-source failure flips the liveness flag. -/
def DualAudioRecorder.onSystemStreamError (st : DualAudioRecorder) : DualAudioRecorder :=
  { st with system_active := false }

/-! ## Capture routines as event traces (dual_audio.rs:377-708)

`record_dual_streams` and `record_mono_stream` run devices, streams and the
sink writer; their externally visible behaviour is modelled as the ordered
trace of device/sink events, the final state of the output file, and the
routine's result.  The writer thread of the dual path is serialized at its
spawn point (sink initialization, dual_audio.rs:531-538) and its join point
(final flush and finalize, dual_audio.rs:561-565,705); only the
happens-before order induced by the spawn — device opening precedes sink
initialization — is relied upon by the theorems. -/

inductive CaptureEvent where
  | opened_device (index : Nat)
  | sink_create_attempt
  | sink_created
  | stream_playing (is_mic : Bool)
  | sink_finalized
deriving DecidableEq, Repr

/-- State of the output WAV file when a capture routine hands back control. -/
inductive SinkFileState where
  | absent
  | unfinalized
  | finalized
deriving DecidableEq, Repr

structure CaptureOutcome where
  events : List CaptureEvent
  file : SinkFileState
  result : Except String Unit
deriving Repr

/-- `record_dual_streams` (dual_audio.rs:500-708).  Devices are resolved
first (lines 510-511); the writer thread created at line 531 performs sink
initialization (`StereoWavWriter::new`: `File::create`, then the header write
of `WavWriter::new`); a sink failure only makes the writer thread return
early (lines 534-537) — the routine itself continues, builds and plays both
streams, and returns `Ok(())` after the stop flag is observed. -/
def record_dual_streams (env : AudioEnv) (mic_device_index system_device_index : Nat) :
    CaptureOutcome :=
  match get_device_by_index env mic_device_index with
  | .error e => { events := [], file := .absent, result := .error e }
  | .ok mic_device =>
  match get_device_by_index env system_device_index with
  | .error e =>
      { events := [.opened_device mic_device_index], file := .absent, result := .error e }
  | .ok system_device =>
  let base := [CaptureEvent.opened_device mic_device_index,
               CaptureEvent.opened_device system_device_index]
  match mic_device.name_result with
  | .error e => { events := base, file := .absent, result := .error e }
  | .ok _ =>
  match system_device.name_result with
  | .error e => { events := base, file := .absent, result := .error e }
  | .ok _ =>
  match mic_device.config with
  | .error e => { events := base, file := .absent, result := .error e }
  | .ok mic_config =>
  match system_device.config with
  | .error e => { events := base, file := .absent, result := .error e }
  | .ok system_config =>
  -- writer thread spawned (line 531): sink initialization inside the thread
  let sink_ready := (env.file_create.isOk && env.header_write.isOk) = true
  let sink_events :=
    if sink_ready then [CaptureEvent.sink_create_attempt, CaptureEvent.sink_created]
    else [CaptureEvent.sink_create_attempt]
  let file0 : SinkFileState := if env.file_create.isOk then .unfinalized else .absent
  let ev1 := base ++ sink_events
  if ¬ mic_config.format_supported then
    { events := ev1, file := file0, result := .error "Unsupported mic sample format" }
  else match env.mic_build with
  | .error e => { events := ev1, file := file0, result := .error e }
  | .ok _ =>
  if ¬ system_config.format_supported then
    { events := ev1, file := file0, result := .error "Unsupported system sample format" }
  else match env.system_build with
  | .error e => { events := ev1, file := file0, result := .error e }
  | .ok _ =>
  match env.mic_play with
  | .error e => { events := ev1, file := file0, result := .error e }
  | .ok _ =>
  match env.system_play with
  | .error e =>
      { events := ev1 ++ [.stream_playing true], file := file0, result := .error e }
  | .ok _ =>
  -- poll loop until the recording flag clears, then the writer is joined:
  -- final flush plus finalize (errors there are only logged, lines 562-565)
  if sink_ready then
    { events := ev1 ++ [.stream_playing true, .stream_playing false, .sink_finalized]
      file := if env.finalize_result.isOk then .finalized else .unfinalized
      result := .ok () }
  else
    { events := ev1 ++ [.stream_playing true, .stream_playing false]
      file := file0
      result := .ok () }

/-- `record_mono_stream` (dual_audio.rs:377-497): device resolved first
(line 383), then the mono sink is created (lines 401-403) with `?`
propagation — here a sink failure does fail the routine, but only after the
device was opened. -/
def record_mono_stream (env : AudioEnv) (mic_device_index : Nat) : CaptureOutcome :=
  match get_device_by_index env mic_device_index with
  | .error e => { events := [], file := .absent, result := .error e }
  | .ok mic_device =>
  let base := [CaptureEvent.opened_device mic_device_index]
  match mic_device.name_result with
  | .error e => { events := base, file := .absent, result := .error e }
  | .ok _ =>
  match mic_device.config with
  | .error e => { events := base, file := .absent, result := .error e }
  | .ok mic_config =>
  match env.file_create with
  | .error e =>
      { events := base ++ [.sink_create_attempt], file := .absent, result := .error e }
  | .ok _ =>
  match env.header_write with
  | .error e =>
      { events := base ++ [.sink_create_attempt], file := .unfinalized, result := .error e }
  | .ok _ =>
  let ev1 := base ++ [CaptureEvent.sink_create_attempt, CaptureEvent.sink_created]
  if ¬ mic_config.format_supported then
    { events := ev1, file := .unfinalized, result := .error "Unsupported sample format" }
  else match env.mic_build with
  | .error e => { events := ev1, file := .unfinalized, result := .error e }
  | .ok _ =>
  match env.mic_play with
  | .error e => { events := ev1, file := .unfinalized, result := .error e }
  | .ok _ =>
  match env.finalize_result with
  | .error e =>
      { events := ev1 ++ [.stream_playing true], file := .unfinalized, result := .error e }
  | .ok _ =>
      { events := ev1 ++ [.stream_playing true, .sink_finalized]
        file := .finalized
        result := .ok () }

/-! ## The dual transcription command (lib.rs:263-355) -/

/-- `TranscriptionSegment` (whisper.rs:215-220). -/
structure TranscriptionSegment where
  start_ms : Int
  end_ms : Int
  text : String
deriving DecidableEq, Repr

/-- Rust's `as u64` cast on an `i64`: two's-complement wrap. -/
def toU64 (z : Int) : Nat := (z % (2 : Int) ^ 64).toNat

/-- External state read by `transcribe_dual_audio`: file existence, the
stereo check and channel split (`whisper::is_stereo_file` /
`whisper::split_stereo_channels`, repository code not under src/, surfaced
here as the results they return for the given file), the black-box
transcription engine, and the configured device names resolved by
lib.rs:322-330. -/
structure TranscribeEnv where
  file_exists : Bool
  is_stereo : Bool
  split_result : Except String (String × String)
  transcribe : String → Except String String
  mic_name : Option String
  system_name : Option String

/-- `transcribe_dual_audio` (lib.rs:263-355).  `parse` stands for
`whisper::parse_transcript_to_segments` (whisper.rs:222-246), passed as a
parameter: every theorem below holds for an arbitrary parser, hence for the
regex-based one.  The database write and temp-file cleanup (lib.rs:343-353)
do not affect the returned transcript and are omitted. -/
def transcribe_dual_audio (parse : String → List TranscriptionSegment)
    (env : TranscribeEnv) : Except String SpeakerTranscript :=
  if ¬ env.file_exists then .error "Audio file not found"
  else if ¬ env.is_stereo then .error "Not a stereo file"
  else match env.split_result with
  | .error e => .error ("Failed to split channels: " ++ e)
  | .ok paths =>
  match env.transcribe paths.1 with
  | .error e => .error ("Failed to transcribe mic channel: " ++ e)
  | .ok left_transcript =>
  match env.transcribe paths.2 with
  | .error e => .error ("Failed to transcribe system channel: " ++ e)
  | .ok right_transcript =>
  let mic_segments := (parse left_transcript).map fun s =>
    ({ speaker := "Me", text := s.text, start_ms := toU64 s.start_ms,
       end_ms := toU64 s.end_ms, is_overlapping := false } : SpeakerSegment)
  let system_segments := (parse right_transcript).map fun s =>
    ({ speaker := "Them", text := s.text, start_ms := toU64 s.start_ms,
       end_ms := toU64 s.end_ms, is_overlapping := false } : SpeakerSegment)
  let mic_name := env.mic_name.getD "Microphone"
  let system_name := env.system_name.getD "System Audio"
  let merged_segments := SpeakerTranscript.merge mic_segments system_segments
  .ok { version := 1
        mic_device := mic_name
        system_device := system_name
        has_dual_audio := true
        segments := merged_segments }

-- Sanity checks of the embedding on the spec's §8.4 example
example :
    SpeakerTranscript.merge
      [⟨"x", "a", 1000, 3000, false⟩] [⟨"y", "b", 2000, 4000, false⟩] =
      [⟨"Me", "a", 1000, 3000, false⟩, ⟨"Them", "b", 2000, 4000, true⟩] := by
  simp [SpeakerTranscript.merge, List.mergeSort, markOverlaps, overlapStep, segLE]

example :
    SpeakerTranscript.merge
      [⟨"x", "a", 0, 1000, false⟩] [⟨"y", "b", 1000, 2000, false⟩] =
      [⟨"Me", "a", 0, 1000, false⟩, ⟨"Them", "b", 1000, 2000, false⟩] := by
  simp [SpeakerTranscript.merge, List.mergeSort, markOverlaps, overlapStep, segLE]

/-! # Lemmas about the merge engine -/

theorem stripFlag_overlapStep (p c : SpeakerSegment) :
    stripFlag (overlapStep p c) = stripFlag c := by
  unfold overlapStep stripFlag
  split <;> rfl

theorem stripFlag_speaker (s : SpeakerSegment) : (stripFlag s).speaker = s.speaker := rfl

theorem stripFlag_start_ms (s : SpeakerSegment) : (stripFlag s).start_ms = s.start_ms := rfl

theorem stripFlag_end_ms (s : SpeakerSegment) : (stripFlag s).end_ms = s.end_ms := rfl

theorem overlapStep_congr {p q : SpeakerSegment} (h : stripFlag p = stripFlag q)
    (c : SpeakerSegment) : overlapStep p c = overlapStep q c := by
  have he : p.end_ms = q.end_ms := by
    rw [← stripFlag_end_ms p, ← stripFlag_end_ms q, h]
  have hs : p.speaker = q.speaker := by
    rw [← stripFlag_speaker p, ← stripFlag_speaker q, h]
  unfold overlapStep
  rw [he, hs]

theorem markOverlaps_eq_zipWith (p : SpeakerSegment) (t : List SpeakerSegment) :
    markOverlaps p t = List.zipWith overlapStep (p :: t) t := by
  induction t generalizing p with
  | nil => rfl
  | cons c rest ih =>
      simp only [markOverlaps, List.zipWith_cons_cons]
      rw [ih (overlapStep p c)]
      cases rest with
      | nil => rfl
      | cons r rs =>
          simp only [List.zipWith_cons_cons]
          rw [overlapStep_congr (stripFlag_overlapStep p c) r]

theorem map_stripFlag_markOverlaps (p : SpeakerSegment) (t : List SpeakerSegment) :
    (markOverlaps p t).map stripFlag = t.map stripFlag := by
  induction t generalizing p with
  | nil => rfl
  | cons c rest ih =>
      simp only [markOverlaps, List.map_cons, stripFlag_overlapStep, ih]

theorem length_markOverlaps (p : SpeakerSegment) (t : List SpeakerSegment) :
    (markOverlaps p t).length = t.length := by
  have h := congrArg List.length (map_stripFlag_markOverlaps p t)
  simpa using h

theorem merge_eq_nil {mic system : List SpeakerSegment}
    (hcase : ((mic.map fun s : SpeakerSegment => { s with speaker := "Me" }) ++
        (system.map fun s : SpeakerSegment => { s with speaker := "Them" })).mergeSort segLE = []) :
    SpeakerTranscript.merge mic system = [] := by
  simp only [SpeakerTranscript.merge]
  rw [hcase]

theorem merge_eq_cons {mic system : List SpeakerSegment} {h : SpeakerSegment}
    {t : List SpeakerSegment}
    (hcase : ((mic.map fun s : SpeakerSegment => { s with speaker := "Me" }) ++
        (system.map fun s : SpeakerSegment => { s with speaker := "Them" })).mergeSort segLE = h :: t) :
    SpeakerTranscript.merge mic system = h :: markOverlaps h t := by
  simp only [SpeakerTranscript.merge]
  rw [hcase]

theorem relabeled_flag_false {mic system : List SpeakerSegment}
    (hm : ∀ s ∈ mic, s.is_overlapping = false)
    (hs : ∀ s ∈ system, s.is_overlapping = false) :
    ∀ s ∈ (mic.map fun s : SpeakerSegment => { s with speaker := "Me" }) ++
        (system.map fun s : SpeakerSegment => { s with speaker := "Them" }), s.is_overlapping = false := by
  intro s hmem
  rcases List.mem_append.mp hmem with h | h
  · rcases List.mem_map.mp h with ⟨a, ha, rfl⟩
    exact hm a ha
  · rcases List.mem_map.mp h with ⟨a, ha, rfl⟩
    exact hs a ha

theorem sorted_flag_false {mic system : List SpeakerSegment}
    (hm : ∀ s ∈ mic, s.is_overlapping = false)
    (hs : ∀ s ∈ system, s.is_overlapping = false) :
    ∀ s ∈ ((mic.map fun s : SpeakerSegment => { s with speaker := "Me" }) ++
        (system.map fun s : SpeakerSegment => { s with speaker := "Them" })).mergeSort segLE,
      s.is_overlapping = false := by
  intro s hmem
  exact relabeled_flag_false hm hs s ((List.mergeSort_perm _ segLE).mem_iff.mp hmem)

theorem getElem_congr_list {α : Type} {l l' : List α} (h : l = l') (i : Nat)
    (hi : i < l.length) (hi' : i < l'.length) : l[i] = l'[i] := by
  subst h; rfl

theorem segLE_trans : ∀ a b c : SpeakerSegment,
    segLE a b = true → segLE b c = true → segLE a c = true := by
  intro a b c hab hbc
  simp only [segLE, decide_eq_true_eq] at hab hbc ⊢
  omega

theorem segLE_total : ∀ a b : SpeakerSegment, (segLE a b || segLE b a) = true := by
  intro a b
  simp only [segLE, Bool.or_eq_true, decide_eq_true_eq]
  omega

theorem mergeSort_filter_key (l : List SpeakerSegment) (k : Nat) :
    (l.mergeSort segLE).filter (fun s => decide (s.start_ms = k)) =
      l.filter (fun s => decide (s.start_ms = k)) := by
  have hpair : List.Pairwise (fun a b => segLE a b = true)
      (l.filter fun s => decide (s.start_ms = k)) := by
    apply List.pairwise_of_forall_mem_list
    intro a ha b hb
    have hak := (List.mem_filter.mp ha).2
    have hbk := (List.mem_filter.mp hb).2
    simp only [decide_eq_true_eq] at hak hbk
    simp only [segLE, decide_eq_true_eq]
    omega
  have hsub : (l.filter fun s => decide (s.start_ms = k)).Sublist (l.mergeSort segLE) :=
    List.mergeSort_stable segLE_trans segLE_total hpair (List.filter_sublist l)
  have hsubf := hsub.filter (fun s => decide (s.start_ms = k))
  have hff : List.filter (fun s => decide (s.start_ms = k))
      (l.filter fun s => decide (s.start_ms = k)) =
      l.filter fun s => decide (s.start_ms = k) :=
    List.filter_eq_self.mpr (fun a ha => (List.mem_filter.mp ha).2)
  rw [hff] at hsubf
  have hlen : ((l.mergeSort segLE).filter fun s => decide (s.start_ms = k)).length =
      (l.filter fun s => decide (s.start_ms = k)).length :=
    ((List.mergeSort_perm l segLE).filter _).length_eq
  exact (hsubf.eq_of_length hlen.symm).symm

/-- C1 (amended): provided every input segment has `is_overlapping = false`
(as every caller in the repository guarantees, lib.rs:296-315), a merged
segment is overlapping exactly when its speaker differs from its immediate
predecessor and its start lies strictly before that predecessor's end; the
first segment is never overlapping.  Without that proviso the claim fails:
`merge` never clears a flag that was already set on its input (see the
counterexample). -/
theorem merge_overlap_iff (mic system : List SpeakerSegment)
    (hm : ∀ s ∈ mic, s.is_overlapping = false)
    (hs : ∀ s ∈ system, s.is_overlapping = false) :
    ((SpeakerTranscript.merge mic system).getD 0 ⟨"", "", 0, 0, false⟩).is_overlapping
        = false ∧
    ∀ i : Nat, i + 1 < (SpeakerTranscript.merge mic system).length →
      (((SpeakerTranscript.merge mic system).getD (i + 1)
            ⟨"", "", 0, 0, false⟩).is_overlapping = true ↔
        (((SpeakerTranscript.merge mic system).getD i
              ⟨"", "", 0, 0, false⟩).speaker ≠
            ((SpeakerTranscript.merge mic system).getD (i + 1)
              ⟨"", "", 0, 0, false⟩).speaker ∧
          ((SpeakerTranscript.merge mic system).getD (i + 1)
              ⟨"", "", 0, 0, false⟩).start_ms <
            ((SpeakerTranscript.merge mic system).getD i
              ⟨"", "", 0, 0, false⟩).end_ms)) := by
  rcases hcase : ((mic.map fun s : SpeakerSegment => { s with speaker := "Me" }) ++
      (system.map fun s : SpeakerSegment => { s with speaker := "Them" })).mergeSort segLE
    with _ | ⟨h, t⟩
  · have hnil := merge_eq_nil hcase
    rw [hnil]
    constructor
    · rfl
    · intro i hi
      simp at hi
  · have hflag : ∀ s ∈ h :: t, s.is_overlapping = false := by
      intro s hmem
      exact sorted_flag_false hm hs s (hcase ▸ hmem)
    have hmerge := merge_eq_cons hcase
    rw [hmerge]
    constructor
    · rw [List.getD_cons_zero]
      exact hflag h (List.mem_cons_self h t)
    · intro i hi
      have hmolen : (markOverlaps h t).length = t.length := length_markOverlaps h t
      have hlt : i < t.length := by
        simp only [List.length_cons, hmolen] at hi
        omega
      have hmoi : i < (markOverlaps h t).length := by omega
      have hpredlen : i < (h :: markOverlaps h t).length := by
        simp only [List.length_cons]
        omega
      have hsortlen : i < (h :: t).length := by
        simp only [List.length_cons]
        omega
      rw [List.getD_cons_succ, List.getD_eq_getElem _ _ hmoi,
        List.getD_eq_getElem _ _ hpredlen]
      have hzip : (markOverlaps h t)[i] = overlapStep ((h :: t)[i]) (t[i]) := by
        rw [getElem_congr_list (markOverlaps_eq_zipWith h t) i hmoi
          (by simpa [hmolen] using hmoi)]
        exact List.getElem_zipWith
      have hmapstrip : (h :: markOverlaps h t).map stripFlag = (h :: t).map stripFlag := by
        simp [map_stripFlag_markOverlaps]
      have hpredstrip : stripFlag ((h :: markOverlaps h t)[i]) = stripFlag ((h :: t)[i]) := by
        have h1 := getElem_congr_list hmapstrip i
          (by simpa using hpredlen) (by simpa using hsortlen)
        simpa only [List.getElem_map] using h1
      have hspk : ((h :: markOverlaps h t)[i]).speaker = ((h :: t)[i]).speaker := by
        rw [← stripFlag_speaker ((h :: markOverlaps h t)[i]), hpredstrip, stripFlag_speaker]
      have hend : ((h :: markOverlaps h t)[i]).end_ms = ((h :: t)[i]).end_ms := by
        rw [← stripFlag_end_ms ((h :: markOverlaps h t)[i]), hpredstrip, stripFlag_end_ms]
      rw [hzip, hspk, hend]
      have hsb : (overlapStep ((h :: t)[i]) (t[i])).speaker = (t[i]).speaker := by
        rw [← stripFlag_speaker (overlapStep ((h :: t)[i]) (t[i])),
          stripFlag_overlapStep, stripFlag_speaker]
      have hstb : (overlapStep ((h :: t)[i]) (t[i])).start_ms = (t[i]).start_ms := by
        rw [← stripFlag_start_ms (overlapStep ((h :: t)[i]) (t[i])),
          stripFlag_overlapStep, stripFlag_start_ms]
      rw [hsb, hstb]
      have hb : (t[i]).is_overlapping = false :=
        hflag _ (List.mem_cons_of_mem h (List.getElem_mem hlt))
      unfold overlapStep
      by_cases hc : ((h :: t)[i]).end_ms > (t[i]).start_ms ∧
          ((h :: t)[i]).speaker ≠ (t[i]).speaker
      · rw [if_pos hc]
        constructor
        · intro _
          exact ⟨hc.2, hc.1⟩
        · intro _
          rfl
      · rw [if_neg hc]
        rw [hb]
        simp only [Bool.false_eq_true, false_iff]
        intro hcontra
        exact hc ⟨hcontra.2, hcontra.1⟩

/-- C1 counterexample: on an input segment that already carries
`is_overlapping = true`, `merge` leaves the flag set even though the segment
is the first of the output, where the claim requires `false`. -/
theorem merge_overlap_cex :
    SpeakerTranscript.merge [] [⟨"x", "t", 0, 0, true⟩] = [⟨"Them", "t", 0, 0, true⟩] ∧
    ((SpeakerTranscript.merge [] [⟨"x", "t", 0, 0, true⟩]).getD 0
        ⟨"", "", 0, 0, false⟩).is_overlapping = true := by
  constructor
  · simp [SpeakerTranscript.merge, List.mergeSort, markOverlaps, overlapStep, segLE]
  · simp [SpeakerTranscript.merge, List.mergeSort, markOverlaps, overlapStep, segLE]

/-- C1 witness: the overlap biconditional evaluated on the spec's §8.4
example pair. -/
theorem merge_overlap_iff_witness :
    ((SpeakerTranscript.merge [⟨"x", "a", 1000, 3000, false⟩]
          [⟨"y", "b", 2000, 4000, false⟩]).getD 1
        ⟨"", "", 0, 0, false⟩).is_overlapping = true ↔
      (((SpeakerTranscript.merge [⟨"x", "a", 1000, 3000, false⟩]
            [⟨"y", "b", 2000, 4000, false⟩]).getD 0
          ⟨"", "", 0, 0, false⟩).speaker ≠
        ((SpeakerTranscript.merge [⟨"x", "a", 1000, 3000, false⟩]
            [⟨"y", "b", 2000, 4000, false⟩]).getD 1
          ⟨"", "", 0, 0, false⟩).speaker ∧
      ((SpeakerTranscript.merge [⟨"x", "a", 1000, 3000, false⟩]
            [⟨"y", "b", 2000, 4000, false⟩]).getD 1
          ⟨"", "", 0, 0, false⟩).start_ms <
        ((SpeakerTranscript.merge [⟨"x", "a", 1000, 3000, false⟩]
            [⟨"y", "b", 2000, 4000, false⟩]).getD 0
          ⟨"", "", 0, 0, false⟩).end_ms) :=
  (merge_overlap_iff [⟨"x", "a", 1000, 3000, false⟩] [⟨"y", "b", 2000, 4000, false⟩]
      (by decide) (by decide)).2 0
    (by simp [SpeakerTranscript.merge, List.mergeSort, markOverlaps, overlapStep, segLE])

/-- C2 (amended): `merge` forces every mic-origin segment's speaker label to
"Me" and every system-origin segment's to "Them" (not "local"/"remote" — the
code's closed label values are "Me" and "Them", dual_audio.rs:52-57),
regardless of the labels present on input: up to the overlap flags, the
output is a permutation of the relabeled concatenation, and every output
speaker is "Me" or "Them". -/
theorem merge_labels (mic system : List SpeakerSegment) :
    (∀ s ∈ SpeakerTranscript.merge mic system, s.speaker = "Me" ∨ s.speaker = "Them") ∧
    ((SpeakerTranscript.merge mic system).map stripFlag).Perm
      (((mic.map fun s : SpeakerSegment => { s with speaker := "Me" }) ++
        (system.map fun s : SpeakerSegment => { s with speaker := "Them" })).map stripFlag) := by
  have hperm : (((mic.map fun s : SpeakerSegment => { s with speaker := "Me" }) ++
      (system.map fun s : SpeakerSegment => { s with speaker := "Them" })).mergeSort
        segLE).Perm
      ((mic.map fun s : SpeakerSegment => { s with speaker := "Me" }) ++
        (system.map fun s : SpeakerSegment => { s with speaker := "Them" })) :=
    List.mergeSort_perm _ segLE
  have hlab : ∀ s ∈ (mic.map fun s : SpeakerSegment => { s with speaker := "Me" }) ++
      (system.map fun s : SpeakerSegment => { s with speaker := "Them" }),
      s.speaker = "Me" ∨ s.speaker = "Them" := by
    intro s hmem
    rcases List.mem_append.mp hmem with hmm | hmm
    · rcases List.mem_map.mp hmm with ⟨a, _, rfl⟩
      left
      rfl
    · rcases List.mem_map.mp hmm with ⟨a, _, rfl⟩
      right
      rfl
  rcases hcase : ((mic.map fun s : SpeakerSegment => { s with speaker := "Me" }) ++
      (system.map fun s : SpeakerSegment => { s with speaker := "Them" })).mergeSort segLE
    with _ | ⟨h, t⟩
  · have hnil := merge_eq_nil hcase
    rw [hcase] at hperm
    have hcnil := hperm.symm.eq_nil
    rw [hnil, hcnil]
    constructor
    · intro s hmem
      simp at hmem
    · simp
  · have hmerge := merge_eq_cons hcase
    rw [hcase] at hperm
    have hmapstrip : (h :: markOverlaps h t).map stripFlag = (h :: t).map stripFlag := by
      simp [map_stripFlag_markOverlaps]
    constructor
    · intro s hmem
      rw [hmerge] at hmem
      have hsmem : stripFlag s ∈ (h :: markOverlaps h t).map stripFlag :=
        List.mem_map_of_mem stripFlag hmem
      rw [hmapstrip] at hsmem
      have hsmem2 : stripFlag s ∈ ((mic.map fun s : SpeakerSegment =>
          { s with speaker := "Me" }) ++
          (system.map fun s : SpeakerSegment => { s with speaker := "Them" })).map stripFlag :=
        ((hperm.map stripFlag).mem_iff).mp hsmem
      rcases List.mem_map.mp hsmem2 with ⟨a, hamem, hastrip⟩
      have hsp : s.speaker = a.speaker := by
        rw [← stripFlag_speaker s, ← stripFlag_speaker a, hastrip]
      rw [hsp]
      exact hlab a hamem
    · rw [hmerge, hmapstrip]
      exact hperm.map stripFlag

/-- C2 counterexample: a mic-origin segment is labeled "Me" after merge, not
"local" as the claim states. -/
theorem merge_labels_cex :
    SpeakerTranscript.merge [⟨"local", "t", 0, 1, false⟩] [] =
      [⟨"Me", "t", 0, 1, false⟩] ∧ ("Me" : String) ≠ "local" := by
  constructor
  · simp [SpeakerTranscript.merge, List.mergeSort, markOverlaps, overlapStep, segLE]
  · decide

/-- C8 (confirmed): the merged output is sorted non-decreasing by `start_ms`,
and for every key the segments with that start offset appear in their
original relative order in the relabeled concatenated (mic then system)
input — Rust's `sort_by_key` is stable, and stability plus sortedness for a
total key comparison determine the output uniquely, so `List.mergeSort` by
the same key is the same function.  Overlap flags are normalized by
`stripFlag` since the detection pass rewrites only them. -/
theorem merge_sorted_stable (mic system : List SpeakerSegment) :
    List.Pairwise (fun a b : SpeakerSegment => a.start_ms ≤ b.start_ms)
      (SpeakerTranscript.merge mic system) ∧
    ∀ k : Nat,
      ((SpeakerTranscript.merge mic system).filter
          (fun s => decide (s.start_ms = k))).map stripFlag =
      (((mic.map fun s : SpeakerSegment => { s with speaker := "Me" }) ++
          (system.map fun s : SpeakerSegment => { s with speaker := "Them" })).filter
        (fun s : SpeakerSegment => decide (s.start_ms = k))).map stripFlag := by
  rcases hcase : ((mic.map fun s : SpeakerSegment => { s with speaker := "Me" }) ++
      (system.map fun s : SpeakerSegment => { s with speaker := "Them" })).mergeSort segLE
    with _ | ⟨h, t⟩
  · have hnil := merge_eq_nil hcase
    have hperm := List.mergeSort_perm ((mic.map fun s : SpeakerSegment =>
        { s with speaker := "Me" }) ++
        (system.map fun s : SpeakerSegment => { s with speaker := "Them" })) segLE
    rw [hcase] at hperm
    have hcnil := hperm.symm.eq_nil
    rw [hnil, hcnil]
    constructor
    · exact List.Pairwise.nil
    · intro k
      simp
  · have hmerge := merge_eq_cons hcase
    have hmapstrip : (h :: markOverlaps h t).map stripFlag = (h :: t).map stripFlag := by
      simp [map_stripFlag_markOverlaps]
    have hsorted : List.Pairwise (fun a b : SpeakerSegment => segLE a b = true) (h :: t) := by
      have hms := List.sorted_mergeSort segLE_trans segLE_total
        ((mic.map fun s : SpeakerSegment => { s with speaker := "Me" }) ++
          (system.map fun s : SpeakerSegment => { s with speaker := "Them" }))
      rw [hcase] at hms
      exact hms
    constructor
    · rw [hmerge]
      have h1 : List.Pairwise (fun a b : SpeakerSegment => a.start_ms ≤ b.start_ms)
          ((h :: t).map stripFlag) := by
        rw [List.pairwise_map]
        refine hsorted.imp ?_
        intro a b hab
        simpa only [segLE, decide_eq_true_eq] using hab
      rw [← hmapstrip] at h1
      have h2 := List.pairwise_map.mp h1
      refine h2.imp ?_
      intro a b hab
      simpa only [stripFlag_start_ms] using hab
    · intro k
      rw [hmerge]
      have hcomp : (fun s => decide (s.start_ms = k)) ∘ stripFlag =
          fun s : SpeakerSegment => decide (s.start_ms = k) := rfl
      have e1 : ((h :: markOverlaps h t).filter (fun s => decide (s.start_ms = k))).map
          stripFlag =
          ((h :: markOverlaps h t).map stripFlag).filter (fun s => decide (s.start_ms = k)) := by
        rw [List.filter_map, hcomp]
      have e2 : ((h :: t).filter (fun s => decide (s.start_ms = k))).map stripFlag =
          ((h :: t).map stripFlag).filter (fun s => decide (s.start_ms = k)) := by
        rw [List.filter_map, hcomp]
      have hstab : (h :: t).filter (fun s => decide (s.start_ms = k)) =
          ((mic.map fun s : SpeakerSegment => { s with speaker := "Me" }) ++
            (system.map fun s : SpeakerSegment => { s with speaker := "Them" })).filter
            (fun s : SpeakerSegment => decide (s.start_ms = k)) := by
        rw [← hcase]
        exact mergeSort_filter_key _ k
      rw [e1, hmapstrip, ← e2, hstab]

/-! # The stereo writer -/

theorem flushPairs_right_nil (l : List ℚ) :
    flushPairs l [] = l.map fun x => (x, (0 : ℚ)) := by
  induction l with
  | nil => simp [flushPairs]
  | cons x xs ih => simp [flushPairs, ih]

theorem flushPairs_left_nil (r : List ℚ) :
    flushPairs [] r = r.map fun x => ((0 : ℚ), x) := by
  induction r with
  | nil => simp [flushPairs]
  | cons x xs ih => simp [flushPairs, ih]

theorem quantizeSample_zero : quantizeSample 0 = 0 := by
  norm_num [quantizeSample, clampSample, truncQ]

/-- C7 (confirmed): if one backlog is empty at flush time, `flush_buffers`
emits exactly one stereo frame per buffered sample of the other side, with
silence (quantized 0) on the starved channel in every frame, and leaves both
backlogs empty. -/
theorem flush_silence_substitution (w : StereoWavWriter) :
    (w.right_buffer = [] →
      w.flush_buffers.written =
        w.written ++ (w.left_buffer.map fun x => (quantizeSample x, (0 : ℤ))) ∧
      w.flush_buffers.written.length = w.written.length + w.left_buffer.length ∧
      w.flush_buffers.left_buffer = [] ∧ w.flush_buffers.right_buffer = []) ∧
    (w.left_buffer = [] →
      w.flush_buffers.written =
        w.written ++ (w.right_buffer.map fun x => ((0 : ℤ), quantizeSample x)) ∧
      w.flush_buffers.written.length = w.written.length + w.right_buffer.length ∧
      w.flush_buffers.left_buffer = [] ∧ w.flush_buffers.right_buffer = []) := by
  constructor
  · intro h
    unfold StereoWavWriter.flush_buffers
    rw [h, flushPairs_right_nil]
    refine ⟨?_, ?_, rfl, rfl⟩
    · simp [quantizeSample_zero]
    · simp
  · intro h
    unfold StereoWavWriter.flush_buffers
    rw [h, flushPairs_left_nil]
    refine ⟨?_, ?_, rfl, rfl⟩
    · simp [quantizeSample_zero]
    · simp

/-- C7 witness: five left samples against an empty right backlog produce
exactly five frames with a silent right channel. -/
theorem flush_silence_substitution_witness :
    (StereoWavWriter.flush_buffers ⟨[1, 2, 3, 4, 5], [], [], 0⟩).written =
      ([] : List (ℤ × ℤ)) ++
        (([1, 2, 3, 4, 5] : List ℚ).map fun x => (quantizeSample x, (0 : ℤ))) ∧
    (StereoWavWriter.flush_buffers ⟨[1, 2, 3, 4, 5], [], [], 0⟩).written.length =
      ([] : List (ℤ × ℤ)).length + ([1, 2, 3, 4, 5] : List ℚ).length ∧
    (StereoWavWriter.flush_buffers ⟨[1, 2, 3, 4, 5], [], [], 0⟩).left_buffer = [] ∧
    (StereoWavWriter.flush_buffers ⟨[1, 2, 3, 4, 5], [], [], 0⟩).right_buffer = [] :=
  (flush_silence_substitution ⟨[1, 2, 3, 4, 5], [], [], 0⟩).1 rfl

/-- C9 (confirmed): every written sample is clamped to [-1, 1] before
quantization, so the quantized value always lies in [-32767, 32767] — never
wrapped — and the out-of-range input 2.0 quantizes to the maximum value
32767; `write_frame` writes exactly the quantized pair. -/
theorem write_frame_clamping :
    (∀ x : ℚ, -32767 ≤ quantizeSample x ∧ quantizeSample x ≤ 32767) ∧
    quantizeSample 2 = 32767 ∧
    ∀ (w : StereoWavWriter) (l r : ℚ),
      (w.write_frame l r).written = w.written ++ [(quantizeSample l, quantizeSample r)] := by
  have hclamp : ∀ x : ℚ, -1 ≤ clampSample x ∧ clampSample x ≤ 1 := by
    intro x
    unfold clampSample
    constructor
    · exact le_min (le_max_right x (-1)) (by norm_num)
    · exact min_le_right _ 1
  refine ⟨?_, ?_, ?_⟩
  · intro x
    have hlo : (-32767 : ℚ) ≤ clampSample x * 32767 := by
      nlinarith [(hclamp x).1]
    have hhi : clampSample x * 32767 ≤ (32767 : ℚ) := by
      nlinarith [(hclamp x).2]
    unfold quantizeSample truncQ
    split
    · constructor
      · have h0 : (0 : ℤ) ≤ ⌊clampSample x * 32767⌋ := Int.floor_nonneg.mpr (by assumption)
        omega
      · have hf : (⌊clampSample x * 32767⌋ : ℚ) ≤ clampSample x * 32767 :=
          Int.floor_le _
        have : (⌊clampSample x * 32767⌋ : ℚ) ≤ (32767 : ℚ) := le_trans hf hhi
        exact_mod_cast this
    · constructor
      · have hc : clampSample x * 32767 ≤ (⌈clampSample x * 32767⌉ : ℚ) := Int.le_ceil _
        have : (-32767 : ℚ) ≤ (⌈clampSample x * 32767⌉ : ℚ) := le_trans hlo hc
        exact_mod_cast this
      · have hneg : clampSample x * 32767 ≤ 0 := le_of_lt (by linarith [not_le.mp (by assumption)])
        have h0 : ⌈clampSample x * 32767⌉ ≤ 0 :=
          Int.ceil_le.mpr (by exact_mod_cast hneg)
        omega
  · have h2 : clampSample 2 = 1 := by norm_num [clampSample]
    unfold quantizeSample
    rw [h2]
    norm_num [truncQ]
  · intro w l r
    rfl

/-! # The resampler -/

/-- C6 (amended): for non-negative ratios outside the identity band, the
output length is exactly `⌊len * ratio⌋`.  The non-negativity proviso is
forced: the `as usize` cast clamps a negative product to zero, so for a
negative ratio the output is empty while the mathematical floor is negative
(see the counterexample). -/
theorem resample_length_law (xs : List ℚ) (r : ℚ) (hr : 0 ≤ r)
    (hne : xs ≠ []) (hband : 1/100 ≤ |r - 1|) :
    ((resample_linear xs r).length : ℤ) = ⌊(xs.length : ℚ) * r⌋ := by
  unfold resample_linear
  rw [if_neg (not_lt.mpr hband)]
  have hnn : 0 ≤ ⌊(xs.length : ℚ) * r⌋ :=
    Int.floor_nonneg.mpr (mul_nonneg (by positivity) hr)
  simp only [List.length_map, List.length_range, resampleLen]
  omega

/-- C6 counterexample: at ratio `-1` (which satisfies `|r - 1| ≥ 0.01`) on the
one-element list, the output length is 0 but `⌊len * r⌋ = -1`: the claim's
equation fails for ratios the claim quantifies over. -/
theorem resample_length_law_cex :
    ¬ (((resample_linear [0] (-1)).length : ℤ) =
        ⌊((([(0 : ℚ)] : List ℚ).length : ℚ) * (-1))⌋) := by
  have hmul : ((([(0 : ℚ)] : List ℚ).length : ℚ) * (-1)) = ((-1 : ℤ) : ℚ) := by
    norm_num
  have hres : resample_linear [0] (-1) = [] := by
    unfold resample_linear
    rw [if_neg (by norm_num)]
    have hlen : resampleLen ([(0 : ℚ)] : List ℚ).length (-1) = 0 := by
      unfold resampleLen
      rw [hmul, Int.floor_intCast]
      rfl
    rw [hlen]
    rfl
  rw [hres, hmul, Int.floor_intCast]
  decide

/-- C6 witness: the length law evaluated at `xs = [1, 2, 3]`, `r = 1/2`. -/
theorem resample_length_law_witness :
    ((resample_linear [1, 2, 3] (1/2)).length : ℤ) =
      ⌊((([(1 : ℚ), 2, 3] : List ℚ).length : ℚ) * (1/2))⌋ :=
  resample_length_law [1, 2, 3] (1/2) (by norm_num) (by simp)
    (by
      rw [show ((1 : ℚ)/2 - 1) = -(1/2) by norm_num, abs_neg,
        abs_of_nonneg (by norm_num : (0 : ℚ) ≤ 1/2)]
      norm_num)

/-- C10 (confirmed): `resample_linear` is total — in particular an empty
input yields an empty output for every ratio, and for any positive ratio and
non-empty input every interpolation index `idx0`/`idx1` of every output
position lies strictly inside the input's bounds, so the `unwrap_or(0.0)`
fallback of the source reads is never taken (and the Rust code, which indexes
only through `get`, cannot panic). -/
theorem resample_safety (xs : List ℚ) (r : ℚ) (hr : 0 < r) :
    resample_linear ([] : List ℚ) r = [] ∧
    (xs ≠ [] → ∀ i : Nat, i < resampleLen xs.length r →
      resampleIdx0 r i < xs.length ∧ resampleIdx1 xs.length r i < xs.length) := by
  constructor
  · unfold resample_linear
    split
    · rfl
    · simp [resampleLen]
  · intro hne i hi
    have hn : 1 ≤ xs.length := by
      cases xs with
      | nil => exact absurd rfl hne
      | cons a l => simp
    have h1 : (i : ℤ) < ⌊(xs.length : ℚ) * r⌋ := by
      unfold resampleLen at hi
      omega
    have h2 : (i : ℚ) < (xs.length : ℚ) * r := by
      have hfl := Int.floor_le ((xs.length : ℚ) * r)
      have hcast : ((i : ℤ) : ℚ) < (⌊(xs.length : ℚ) * r⌋ : ℚ) := by exact_mod_cast h1
      push_cast at hcast
      linarith
    have h3 : (i : ℚ) / r < (xs.length : ℚ) := by
      rw [div_lt_iff₀ hr]
      linarith
    have h4 : ⌊(i : ℚ) / r⌋ < (xs.length : ℤ) := by
      rw [Int.floor_lt]
      push_cast
      exact h3
    have h5 : resampleIdx0 r i < xs.length := by
      unfold resampleIdx0
      omega
    refine ⟨h5, ?_⟩
    unfold resampleIdx1
    omega

/-- C10 witness: safety evaluated at `xs = [1, 2, 3]`, `r = 1/2`, output
index 0. -/
theorem resample_safety_witness :
    resample_linear ([] : List ℚ) (1/2) = [] ∧
    (resampleIdx0 (1/2) 0 < ([1, 2, 3] : List ℚ).length ∧
      resampleIdx1 ([1, 2, 3] : List ℚ).length (1/2) 0 < ([1, 2, 3] : List ℚ).length) :=
  by
  have hlen : resampleLen ([1, 2, 3] : List ℚ).length (1/2) = 1 := by
    unfold resampleLen
    rw [show ((([1, 2, 3] : List ℚ).length : ℚ) * (1/2)) = (3/2 : ℚ) by norm_num]
    rw [show ⌊(3/2 : ℚ)⌋ = 1 from Int.floor_eq_iff.mpr (by norm_num)]
    rfl
  exact ⟨(resample_safety [1, 2, 3] (1/2) (by norm_num)).1,
    (resample_safety [1, 2, 3] (1/2) (by norm_num)).2 (by simp) 0 (by rw [hlen]; norm_num)⟩

/-! # The recording session state machine -/

/-- C5 (confirmed): starting while already recording and stopping while idle
are rejected synchronously with the dedicated caller errors and no state
mutation whatsoever — the returned state is the input state, so recording
flag, liveness flags, meeting id and device names are all unchanged; and
after a first (accepted) stop, a second stop is rejected the same way and
leaves the post-stop state unchanged, so the first stop's result — a pure
value already returned — is not altered. -/
theorem recorder_guard_errors (st : DualAudioRecorder) (env env2 : AudioEnv)
    (meeting_id : String) (mi si : Option Nat) :
    (st.is_recording = true →
      st.start env meeting_id mi si = (st, .error "Already recording")) ∧
    (st.is_recording = false →
      st.stop env = (st, .error "Not recording")) ∧
    (st.is_recording = true →
      ((st.stop env).1).stop env2 = ((st.stop env).1, .error "Not recording")) := by
  have hguard : ∀ (s : DualAudioRecorder) (e : AudioEnv), s.is_recording = false →
      s.stop e = (s, .error "Not recording") := by
    intro s e hsrec
    simp [DualAudioRecorder.stop, hsrec]
  refine ⟨?_, hguard st env, ?_⟩
  · intro h
    simp [DualAudioRecorder.start, h]
  · intro h
    have h2 : ((st.stop env).1).is_recording = false := by
      simp [DualAudioRecorder.stop, h]
    exact hguard _ env2 h2

/-- C5 witness: the three guard rejections evaluated at concrete states (one
mid-recording, one idle) and a concrete environment. -/
theorem recorder_guard_errors_witness :
    (DualAudioRecorder.start ⟨"/a", some "m1", true, true, true, "Mic", "Sys", 16000⟩
        ⟨.ok [], .ok [], fun _ => .error "e", .ok (), .ok (), .ok (), .ok (), .ok (),
          .ok (), .ok ()⟩ "m2" none none =
      (⟨"/a", some "m1", true, true, true, "Mic", "Sys", 16000⟩,
        .error "Already recording")) ∧
    (DualAudioRecorder.stop (DualAudioRecorder.new "/a")
        ⟨.ok [], .ok [], fun _ => .error "e", .ok (), .ok (), .ok (), .ok (), .ok (),
          .ok (), .ok ()⟩ =
      (DualAudioRecorder.new "/a", .error "Not recording")) ∧
    (DualAudioRecorder.stop
        ((DualAudioRecorder.stop ⟨"/a", some "m1", true, true, true, "Mic", "Sys", 16000⟩
            ⟨.ok [], .ok [], fun _ => .error "e", .ok (), .ok (), .ok (), .ok (), .ok (),
              .ok (), .ok ()⟩).1)
        ⟨.ok [], .ok [], fun _ => .error "e", .ok (), .ok (), .ok (), .ok (), .ok (),
          .ok (), .ok ()⟩ =
      ((DualAudioRecorder.stop ⟨"/a", some "m1", true, true, true, "Mic", "Sys", 16000⟩
            ⟨.ok [], .ok [], fun _ => .error "e", .ok (), .ok (), .ok (), .ok (), .ok (),
              .ok (), .ok ()⟩).1, .error "Not recording")) :=
  ⟨(recorder_guard_errors ⟨"/a", some "m1", true, true, true, "Mic", "Sys", 16000⟩
      ⟨.ok [], .ok [], fun _ => .error "e", .ok (), .ok (), .ok (), .ok (), .ok (),
        .ok (), .ok ()⟩
      ⟨.ok [], .ok [], fun _ => .error "e", .ok (), .ok (), .ok (), .ok (), .ok (),
        .ok (), .ok ()⟩ "m2" none none).1 rfl,
    (recorder_guard_errors (DualAudioRecorder.new "/a")
      ⟨.ok [], .ok [], fun _ => .error "e", .ok (), .ok (), .ok (), .ok (), .ok (),
        .ok (), .ok ()⟩
      ⟨.ok [], .ok [], fun _ => .error "e", .ok (), .ok (), .ok (), .ok (), .ok (),
        .ok (), .ok ()⟩ "m2" none none).2.1 rfl,
    (recorder_guard_errors ⟨"/a", some "m1", true, true, true, "Mic", "Sys", 16000⟩
      ⟨.ok [], .ok [], fun _ => .error "e", .ok (), .ok (), .ok (), .ok (), .ok (),
        .ok (), .ok ()⟩
      ⟨.ok [], .ok [], fun _ => .error "e", .ok (), .ok (), .ok (), .ok (), .ok (),
        .ok (), .ok ()⟩ "m2" none none).2.2 rfl⟩

/-! # The transcription command and the capture routines -/

/-- C4 (amended): every produced `SpeakerTranscript` has `has_dual_audio =
true` unconditionally — both `SpeakerTranscript::new` and
`transcribe_dual_audio` hard-code `true` and never consult the recorder's
capture flags.  (Mono recordings are rejected by the stereo check before a
transcript is produced, but a stereo file from a session that captured only
one channel still yields `true`; see the counterexample.) -/
theorem has_dual_audio_always_true (parse : String → List TranscriptionSegment)
    (env : TranscribeEnv) (m s : String) (t : SpeakerTranscript) :
    (SpeakerTranscript.new m s).has_dual_audio = true ∧
    (transcribe_dual_audio parse env = .ok t → t.has_dual_audio = true) := by
  constructor
  · rfl
  · intro h
    simp only [transcribe_dual_audio] at h
    repeat' split at h
    all_goals simp_all
    all_goals rw [← h]

/-- C4 counterexample: a dual session whose system stream failed mid-session
(its error callback cleared `system_active`) reports `system_captured =
false` and `is_dual_audio = false` on stop — only one channel was captured —
yet transcribing the session's (stereo) file produces a transcript with
`has_dual_audio = true`. -/
theorem has_dual_audio_cex :
    ((DualAudioRecorder.onSystemStreamError
          ⟨"/a", some "m1", true, true, true, "Mic", "Sys", 16000⟩).stop
        ⟨.ok [], .ok [], fun _ => .error "e", .ok (), .ok (), .ok (), .ok (), .ok (),
          .ok (), .ok ()⟩).2 =
      .ok { meeting_id := "m1", duration_secs := 0, is_dual_audio := false,
            mic_captured := true, system_captured := false } ∧
    transcribe_dual_audio (fun _ => [])
        ⟨true, true, .ok ("l", "r"), fun _ => .ok "", none, none⟩ =
      .ok { version := 1, mic_device := "Microphone", system_device := "System Audio",
            has_dual_audio := true, segments := [] } := by
  constructor
  · rfl
  · simp [transcribe_dual_audio, SpeakerTranscript.merge, List.mergeSort]

/-- C4 witness: the always-true flag evaluated on `SpeakerTranscript::new`
and on a concrete successful `transcribe_dual_audio` run. -/
theorem has_dual_audio_witness :
    (SpeakerTranscript.new "M" "S").has_dual_audio = true ∧
    ({ version := 1, mic_device := "Microphone", system_device := "System Audio",
       has_dual_audio := true, segments := [] } : SpeakerTranscript).has_dual_audio
      = true :=
  ⟨(has_dual_audio_always_true (fun _ => [])
      ⟨true, true, .ok ("l", "r"), fun _ => .ok "", none, none⟩ "M" "S"
      { version := 1, mic_device := "Microphone", system_device := "System Audio",
        has_dual_audio := true, segments := [] }).1,
    (has_dual_audio_always_true (fun _ => [])
      ⟨true, true, .ok ("l", "r"), fun _ => .ok "", none, none⟩ "M" "S"
      { version := 1, mic_device := "Microphone", system_device := "System Audio",
        has_dual_audio := true, segments := [] }).2
      (by simp [transcribe_dual_audio, SpeakerTranscript.merge, List.mergeSort])⟩

/-- C3 (amended): when sink initialization fails, the capture devices have
already been resolved and opened — device lookup precedes sink creation in
both capture paths — and the dual capture attempt does not fail: the writer
thread returns early and the routine plays both streams until stop and
returns `Ok(())`, leaving no file when file creation itself failed.  The
mono path does propagate the sink error, but only after its device was
opened. -/
theorem sink_failure_behavior (env : AudioEnv) (mi si : Nat) (dm ds : CpalDevice)
    (nm ns efc : String) (cm cs : StreamConfig)
    (hdm : get_device_by_index env mi = .ok dm)
    (hds : get_device_by_index env si = .ok ds)
    (hnm : dm.name_result = .ok nm) (hns : ds.name_result = .ok ns)
    (hcm : dm.config = .ok cm) (hcs : ds.config = .ok cs)
    (hfm : cm.format_supported = true) (hfs : cs.format_supported = true)
    (hmb : env.mic_build = .ok ()) (hsb2 : env.system_build = .ok ())
    (hmp : env.mic_play = .ok ()) (hsp : env.system_play = .ok ())
    (hfc : env.file_create = .error efc) :
    (record_dual_streams env mi si).result = .ok () ∧
    (record_dual_streams env mi si).events =
      [.opened_device mi, .opened_device si, .sink_create_attempt,
        .stream_playing true, .stream_playing false] ∧
    (record_dual_streams env mi si).file = .absent ∧
    (record_mono_stream env mi).result = .error efc ∧
    (record_mono_stream env mi).events = [.opened_device mi, .sink_create_attempt] ∧
    (record_mono_stream env mi).file = .absent := by
  have hdual : record_dual_streams env mi si =
      { events := [.opened_device mi, .opened_device si, .sink_create_attempt,
          .stream_playing true, .stream_playing false]
        file := .absent
        result := .ok () } := by
    simp [record_dual_streams, hdm, hds, hnm, hns, hcm, hcs, hfm, hfs, hmb, hsb2,
      hmp, hsp, hfc, Except.isOk, Except.toBool]
  have hmono : record_mono_stream env mi =
      { events := [.opened_device mi, .sink_create_attempt]
        file := .absent
        result := .error efc } := by
    simp [record_mono_stream, hdm, hnm, hcm, hfc]
  rw [hdual, hmono]
  exact ⟨rfl, rfl, rfl, rfl, rfl, rfl⟩

/-- C3 counterexample: with both devices resolvable and the sink's file
creation failing, `record_dual_streams` opens both devices first (events 1-2
precede the sink-create attempt) and returns `Ok(())` — the capture attempt
neither fails nor fails before devices are opened. -/
theorem sink_failure_cex :
    record_dual_streams
      ⟨.ok [], .ok [⟨.ok "M", .ok ⟨44100, 1, true⟩⟩, ⟨.ok "S", .ok ⟨48000, 2, true⟩⟩],
        fun _ => .error "e", .error "io", .ok (), .ok (), .ok (), .ok (), .ok (),
        .ok ()⟩ 0 1 =
      { events := [.opened_device 0, .opened_device 1, .sink_create_attempt,
          .stream_playing true, .stream_playing false]
        file := .absent
        result := .ok () } := by
  rfl

/-- C3 witness: the amended behaviour at a concrete environment whose file
creation fails with "disk full". -/
theorem sink_failure_behavior_witness :
    (record_dual_streams
        ⟨.ok [], .ok [⟨.ok "Mic0", .ok ⟨16000, 1, true⟩⟩, ⟨.ok "Mon1", .ok ⟨16000, 2, true⟩⟩],
          fun _ => .error "e", .error "disk full", .ok (), .ok (), .ok (), .ok (),
          .ok (), .ok ()⟩ 0 1).result = .ok () ∧
    (record_dual_streams
        ⟨.ok [], .ok [⟨.ok "Mic0", .ok ⟨16000, 1, true⟩⟩, ⟨.ok "Mon1", .ok ⟨16000, 2, true⟩⟩],
          fun _ => .error "e", .error "disk full", .ok (), .ok (), .ok (), .ok (),
          .ok (), .ok ()⟩ 0 1).events =
      [.opened_device 0, .opened_device 1, .sink_create_attempt,
        .stream_playing true, .stream_playing false] ∧
    (record_dual_streams
        ⟨.ok [], .ok [⟨.ok "Mic0", .ok ⟨16000, 1, true⟩⟩, ⟨.ok "Mon1", .ok ⟨16000, 2, true⟩⟩],
          fun _ => .error "e", .error "disk full", .ok (), .ok (), .ok (), .ok (),
          .ok (), .ok ()⟩ 0 1).file = .absent ∧
    (record_mono_stream
        ⟨.ok [], .ok [⟨.ok "Mic0", .ok ⟨16000, 1, true⟩⟩, ⟨.ok "Mon1", .ok ⟨16000, 2, true⟩⟩],
          fun _ => .error "e", .error "disk full", .ok (), .ok (), .ok (), .ok (),
          .ok (), .ok ()⟩ 0).result = .error "disk full" ∧
    (record_mono_stream
        ⟨.ok [], .ok [⟨.ok "Mic0", .ok ⟨16000, 1, true⟩⟩, ⟨.ok "Mon1", .ok ⟨16000, 2, true⟩⟩],
          fun _ => .error "e", .error "disk full", .ok (), .ok (), .ok (), .ok (),
          .ok (), .ok ()⟩ 0).events = [.opened_device 0, .sink_create_attempt] ∧
    (record_mono_stream
        ⟨.ok [], .ok [⟨.ok "Mic0", .ok ⟨16000, 1, true⟩⟩, ⟨.ok "Mon1", .ok ⟨16000, 2, true⟩⟩],
          fun _ => .error "e", .error "disk full", .ok (), .ok (), .ok (), .ok (),
          .ok (), .ok ()⟩ 0).file = .absent :=
  sink_failure_behavior
    ⟨.ok [], .ok [⟨.ok "Mic0", .ok ⟨16000, 1, true⟩⟩, ⟨.ok "Mon1", .ok ⟨16000, 2, true⟩⟩],
      fun _ => .error "e", .error "disk full", .ok (), .ok (), .ok (), .ok (),
      .ok (), .ok ()⟩ 0 1
    ⟨.ok "Mic0", .ok ⟨16000, 1, true⟩⟩ ⟨.ok "Mon1", .ok ⟨16000, 2, true⟩⟩
    "Mic0" "Mon1" "disk full" ⟨16000, 1, true⟩ ⟨16000, 2, true⟩
    rfl rfl rfl rfl rfl rfl rfl rfl rfl rfl rfl rfl rfl
